import Mathlib

/-
Verification of the timing and replica-role primitives of a Raft-style
election core.  The source consists of two Python files:

  timer.py         : class Timer (fields start_time, duration; method is_done
                     returning time.time() >= start_time + duration) and
                     class Stopwatch (field start_time; method time_elapsed
                     returning time.time() - start_time).
  ReplicaState.py  : enum ReplicaState with FOLLOWER = 0, CANDIDATE = 1,
                     LEADER = 2.

Clock readings returned by time.time() are modelled as rationals; every
query receives the current clock reading explicitly as a parameter.  Real
time never moves backward, so a later query is one whose clock reading is
greater than or equal to an earlier one.
-/

namespace Raft

/-- Clock readings and durations, as returned by time.time(). -/
abbrev Time := ℚ

/-- Embedding of timer.py, class Timer: the constructor stores the current
clock reading in start_time and the given duration in duration, with no
validation of any kind. -/
structure Timer where
  start_time : Time
  duration : Time
deriving DecidableEq, Repr

/-- Embedding of Timer.__init__: self.start_time = time.time();
self.duration = duration.  The parameter now is the clock reading at
construction.  The constructor is total: it succeeds on every duration. -/
def Timer.init (now : Time) (duration : Time) : Timer :=
  { start_time := now, duration := duration }

/-- Embedding of Timer.is_done: return time.time() >= self.start_time +
self.duration.  The parameter now is the clock reading at the query. -/
def Timer.is_done (t : Timer) (now : Time) : Bool :=
  decide (now ≥ t.start_time + t.duration)

/-- State-passing form of Timer.is_done, making explicit that the method
body only reads self.start_time and self.duration and assigns nothing:
it returns the boolean result together with the (unchanged) object. -/
def Timer.is_doneQ (t : Timer) (now : Time) : Bool × Timer :=
  (t.is_done now, t)

/-- A sequence of is_done queries at the given clock readings, threading
the object state through each state-passing query in order. -/
def Timer.queryAll (t : Timer) (times : List Time) : List Bool × Timer :=
  match times with
  | [] => ([], t)
  | n :: ns =>
      let p := t.is_doneQ n
      let rest := p.2.queryAll ns
      (p.1 :: rest.1, rest.2)

/-- Embedding of timer.py, class Stopwatch: the constructor stores the
current clock reading in start_time. -/
structure Stopwatch where
  start_time : Time
deriving DecidableEq, Repr

/-- Embedding of Stopwatch.__init__: self.start_time = time.time(). -/
def Stopwatch.init (now : Time) : Stopwatch :=
  { start_time := now }

/-- Embedding of Stopwatch.time_elapsed: return time.time() -
self.start_time.  State-passing form: the method reads start_time and
assigns nothing, so it returns the value with the unchanged object. -/
def Stopwatch.time_elapsed (s : Stopwatch) (now : Time) : Time × Stopwatch :=
  (now - s.start_time, s)

/-- Embedding of ReplicaState.py: enum ReplicaState with members
FOLLOWER, CANDIDATE and LEADER, carrying no payload. -/
inductive ReplicaState where
  | FOLLOWER
  | CANDIDATE
  | LEADER
deriving DecidableEq, Repr, Fintype

/-- Embedding of the numeric values of the enum members: FOLLOWER = 0,
CANDIDATE = 1, LEADER = 2. -/
def ReplicaState.value : ReplicaState → ℕ
  | .FOLLOWER => 0
  | .CANDIDATE => 1
  | .LEADER => 2

/-- Modelled from the spec: the election-controller events of the
transition table in section 4.3.  The controller itself is absent from the
source fragment (only the role enum is present), so the event alphabet is
taken from the table: election-timer expiry, a vote grant reaching
majority, an append/heartbeat message carrying the peer term, heartbeat-
timer expiry, and observation of a message carrying a given term. -/
inductive Event where
  | electionTimerExpires
  | voteGrantedMajority
  | appendOrHeartbeatReceived (peerTerm : ℕ)
  | heartbeatTimerExpires
  | higherTermObserved (peerTerm : ℕ)
deriving DecidableEq, Repr

/-- Modelled from the spec: the part of the controller state the table in
section 4.3 mentions, the current role and the current term. -/
structure CtrlState where
  role : ReplicaState
  term : ℕ
deriving DecidableEq, Repr

/-- Modelled from the spec: the transition table of section 4.3, one
entry per (event, role) pair.  A pair marked not-applicable in the table
yields none, which the surrounding system surfaces as an illegal
transition attempt (section 7c); a message carrying a stale term is
silently ignored, leaving the state unchanged (section 7b, section 4.3
failure semantics).  Election-timer expiry makes the replica CANDIDATE
and increments the term (also on the split-vote retry from CANDIDATE); a
majority vote turns a CANDIDATE into LEADER in the same term; an
append/heartbeat with term at least the own term makes the replica
FOLLOWER adopting the peer term; heartbeat-timer expiry is a leader-only
no-op on this state; observing a strictly higher term adopts it and steps
down to FOLLOWER. -/
def stepCtrl (s : CtrlState) (e : Event) : Option CtrlState :=
  match e, s.role with
  | .electionTimerExpires, .FOLLOWER =>
      some { role := .CANDIDATE, term := s.term + 1 }
  | .electionTimerExpires, .CANDIDATE =>
      some { role := .CANDIDATE, term := s.term + 1 }
  | .electionTimerExpires, .LEADER => none
  | .voteGrantedMajority, .CANDIDATE =>
      some { role := .LEADER, term := s.term }
  | .voteGrantedMajority, _ => none
  | .appendOrHeartbeatReceived p, _ =>
      if s.term ≤ p then some { role := .FOLLOWER, term := p } else some s
  | .heartbeatTimerExpires, .LEADER => some s
  | .heartbeatTimerExpires, _ => none
  | .higherTermObserved p, _ =>
      if s.term < p then some { role := .FOLLOWER, term := p } else some s

/-- Modelled from the spec: a run of the controller over a sequence of
events.  A legal event takes the step the table prescribes; an event with
no table entry is surfaced and leaves the state unchanged (section 7c:
rejected, never silently mutating state). -/
def runCtrl (s : CtrlState) (es : List Event) : CtrlState :=
  es.foldl (fun s e => (stepCtrl s e).getD s) s

end Raft

namespace Raft

/-- Claim C1: for every timer constructed with duration d ≥ 0, is_done
returns true exactly when the current clock reading is at least
start + d; in particular a timer with d > 0 queried at the construction
instant reports false. -/
theorem timer_is_done_iff_deadline (s d : Time) (hd : 0 ≤ d) :
    (∀ now : Time, (Timer.init s d).is_done now = true ↔ s + d ≤ now) ∧
      (0 < d → (Timer.init s d).is_done s = false) := by
  constructor
  · intro now
    simp [Timer.init, Timer.is_done, ge_iff_le]
  · intro hpos
    simp only [Timer.init, Timer.is_done, ge_iff_le, decide_eq_false_iff_not]
    intro hle
    linarith

/-- Witness for C1 at s = 0, d = 1: the deadline test holds at now = 3 and
the fresh timer reports false at now = 0. -/
theorem timer_is_done_iff_deadline_witness :
    (Timer.init 0 1).is_done 3 = true ∧ (Timer.init 0 1).is_done 0 = false :=
  ⟨((timer_is_done_iff_deadline 0 1 (by norm_num)).1 3).2 (by norm_num),
    (timer_is_done_iff_deadline 0 1 (by norm_num)).2 (by norm_num)⟩

/-- Claim C2: once is_done has returned true, every later query (one at a
clock reading greater than or equal to the earlier one) also returns
true: the timer never reverts to not-done. -/
theorem timer_is_done_monotone (t : Timer) (n₁ n₂ : Time) (h : n₁ ≤ n₂)
    (h₁ : t.is_done n₁ = true) : t.is_done n₂ = true := by
  simp only [Timer.is_done, ge_iff_le, decide_eq_true_eq] at h₁ ⊢
  linarith

/-- Witness for C2: the timer armed at 0 for 1 is done at reading 1 and
remains done at the later reading 2. -/
theorem timer_is_done_monotone_witness :
    (Timer.init 0 1).is_done 2 = true :=
  timer_is_done_monotone (Timer.init 0 1) 1 2 (by norm_num)
    (by simp [Timer.init, Timer.is_done])

/-- Counterexample to claim C3: the claim says constructing a timer with a
negative duration never succeeds, yet Timer.__init__ performs no
validation: construction at duration -1 succeeds and yields a timer
storing that negative duration. -/
theorem timer_init_negative_succeeds :
    (Timer.init 0 (-1)).duration = -1 ∧ (Timer.init 0 (-1)).start_time = 0 :=
  ⟨rfl, rfl⟩

/-- Claim C3 as amended: constructing a timer never fails; for every
duration, negative ones included, the constructor succeeds and stores the
start reading and the duration exactly as given. -/
theorem timer_init_total (now d : Time) :
    (Timer.init now d).start_time = now ∧ (Timer.init now d).duration = d :=
  ⟨rfl, rfl⟩

/-- Claim C4: a timer constructed with duration 0 reports is_done true on
its very first query, regardless of how much (nonnegative) real time has
elapsed since construction. -/
theorem timer_zero_duration_done (s e : Time) (he : 0 ≤ e) :
    (Timer.init s 0).is_done (s + e) = true := by
  simp only [Timer.init, Timer.is_done, ge_iff_le, decide_eq_true_eq]
  linarith

/-- Witness for C4: the timer armed at 0 with duration 0 is done when
queried after 5 units of elapsed time. -/
theorem timer_zero_duration_done_witness :
    (Timer.init 0 0).is_done (0 + 5) = true :=
  timer_zero_duration_done 0 5 (by norm_num)

/-- Claim C5: two successive time_elapsed queries on a stopwatch never
yield a smaller value on the second (later) call. -/
theorem stopwatch_elapsed_monotone (s : Stopwatch) (n₁ n₂ : Time)
    (h : n₁ ≤ n₂) : (s.time_elapsed n₁).1 ≤ (s.time_elapsed n₂).1 := by
  simp only [Stopwatch.time_elapsed]
  linarith

/-- Witness for C5: for the stopwatch started at 0, queries at readings 1
and then 2 give non-decreasing elapsed values. -/
theorem stopwatch_elapsed_monotone_witness :
    ((Stopwatch.init 0).time_elapsed 1).1 ≤ ((Stopwatch.init 0).time_elapsed 2).1 :=
  stopwatch_elapsed_monotone (Stopwatch.init 0) 1 2 (by norm_num)

/-- Claim C6: every time_elapsed call returns exactly the current clock
reading minus the start reading captured at construction, and leaves the
stopwatch unchanged (no side effects). -/
theorem stopwatch_elapsed_value (s : Stopwatch) (now : Time) :
    (s.time_elapsed now).1 = now - s.start_time ∧ (s.time_elapsed now).2 = s :=
  ⟨rfl, rfl⟩

/-- Claim C7: is_done is a pure query.  Any sequence of queries leaves the
timer unchanged, its start_time and duration fields keep the values fixed
at construction, and each query in the sequence returns the same result
the original timer would give. -/
theorem timer_queries_pure (t : Timer) (times : List Time) :
    (t.queryAll times).2 = t ∧
      (t.queryAll times).2.start_time = t.start_time ∧
      (t.queryAll times).2.duration = t.duration ∧
      (t.queryAll times).1 = times.map t.is_done := by
  induction times generalizing t with
  | nil => exact ⟨rfl, rfl, rfl, rfl⟩
  | cons n ns ih =>
      obtain ⟨h₁, _, _, h₄⟩ := ih t
      have hsnd : (t.queryAll (n :: ns)).2 = t := by
        simp [Timer.queryAll, Timer.is_doneQ, h₁]
      exact ⟨hsnd, by rw [hsnd], by rw [hsnd],
        by simp [Timer.queryAll, Timer.is_doneQ, h₄]⟩

/-- Claim C8: the replica role type is a closed enumeration: every value
is one of FOLLOWER, CANDIDATE, LEADER, there are exactly three values,
and the three are pairwise distinct. -/
theorem replicaState_closed_enum :
    (∀ r : ReplicaState, r = .FOLLOWER ∨ r = .CANDIDATE ∨ r = .LEADER) ∧
      Fintype.card ReplicaState = 3 ∧
      ReplicaState.FOLLOWER ≠ .CANDIDATE ∧
      ReplicaState.FOLLOWER ≠ .LEADER ∧
      ReplicaState.CANDIDATE ≠ .LEADER := by
  refine ⟨fun r => ?_, by decide, by decide, by decide, by decide⟩
  cases r
  · exact Or.inl rfl
  · exact Or.inr (Or.inl rfl)
  · exact Or.inr (Or.inr rfl)

/-- Every single step of the controller, with an illegal event leaving the
state unchanged, keeps the term from decreasing. -/
theorem stepCtrl_term_le (s : CtrlState) (e : Event) :
    s.term ≤ ((stepCtrl s e).getD s).term := by
  obtain ⟨r, t⟩ := s
  cases e <;> cases r <;>
    simp only [stepCtrl, Option.getD] <;>
    (try split_ifs) <;> simp <;> omega

/-- Claim C9: over any sequence of election-controller events the term is
non-decreasing, and every transition into the CANDIDATE role (a step the
table prescribes that changes the state and lands in CANDIDATE) strictly
increases the term relative to its value immediately prior. -/
theorem ctrl_term_monotone :
    (∀ (s : CtrlState) (es : List Event), s.term ≤ (runCtrl s es).term) ∧
      (∀ (s : CtrlState) (e : Event) (s' : CtrlState),
        stepCtrl s e = some s' → s'.role = .CANDIDATE → s' ≠ s →
        s.term < s'.term) := by
  constructor
  · intro s es
    induction es generalizing s with
    | nil => exact le_refl _
    | cons e es ih => exact le_trans (stepCtrl_term_le s e) (ih _)
  · intro s e s' h hrole hne
    obtain ⟨r, t⟩ := s
    obtain ⟨r', t'⟩ := s'
    cases e <;> cases r <;>
      simp only [stepCtrl] at h <;>
      (try split_ifs at h) <;>
      simp_all [CtrlState.mk.injEq] <;> omega

/-- Witness for C9: from FOLLOWER at term 0, election-timer expiry steps
to CANDIDATE, and the term strictly increases (0 < 1). -/
theorem ctrl_term_monotone_witness :
    stepCtrl ⟨.FOLLOWER, 0⟩ .electionTimerExpires = some ⟨.CANDIDATE, 1⟩ ∧
      (0 : ℕ) < 1 :=
  ⟨rfl, ctrl_term_monotone.2 ⟨.FOLLOWER, 0⟩ .electionTimerExpires
    ⟨.CANDIDATE, 1⟩ rfl rfl (by decide)⟩

/-- Claim C10: Timer construction succeeds for every duration value,
negative ones included, storing the fields as given; and a timer built
with a negative duration reports is_done true on its very first query
(any query at or after the construction instant). -/
theorem timer_negative_duration (s d : Time) :
    (Timer.init s d).start_time = s ∧ (Timer.init s d).duration = d ∧
      (d < 0 → ∀ now : Time, s ≤ now → (Timer.init s d).is_done now = true) := by
  refine ⟨rfl, rfl, fun hd now hn => ?_⟩
  simp only [Timer.init, Timer.is_done, ge_iff_le, decide_eq_true_eq]
  linarith

/-- Witness for C10: the timer armed at 0 with duration -1 is done when
first queried at reading 0. -/
theorem timer_negative_duration_witness :
    (Timer.init 0 (-1)).is_done 0 = true :=
  (timer_negative_duration 0 (-1)).2.2 (by norm_num) 0 (le_refl 0)

end Raft
